import Mathlib

/-!
Shallow embedding of the authentication and token-lifecycle subsystem of the
Neurotrainer backend (src/api/v1/endpoints/auth/{login,logout,refresh,register}.py,
src/core/dependencies.py, src/database/models.py), together with theorems
settling the specification claims about it.

The module src/core/security.py (token codec and password hashing) is not part
of the sources; its functions are modelled from the specification, as marked in
their doc comments. Everything else is translated line by line from the Python
sources. Database sessions are modelled as an explicit state value; the unique
constraint on the jti column of the token_blacklist table is enforced at commit
time, as the relational store would.
-/

/-- Truthiness of an optional string, as Python evaluates it: None and the
empty string are falsy, every other string is truthy. -/
def pyTruthy : Option String → Bool
  | none => false
  | some s => s ≠ ""

/-- Python expression `a or b` on two optional strings: yields `a` when `a`
is truthy, otherwise `b`. -/
def pyOr (a b : Option String) : Option String :=
  if pyTruthy a then a else b

/-- Claims carried by a decoded token payload: the payload dictionary fields
read by the endpoints (`sub`, `type`, `jti`, `exp`). Absent keys are `none`. -/
structure Claims where
  sub : Option String
  type : Option String
  jti : Option String
  exp : Option Nat
deriving DecidableEq, Repr

/-- Token strings as the codec sees them: a token either verifies and carries
an embedded payload, or fails verification. The `raw` string distinguishes
syntactically different invalid tokens. -/
inductive Token where
  | valid (payload : Claims)
  | invalid (raw : String)
deriving DecidableEq, Repr

/-- Modelled from the spec: `src.core.security.decode_token` is absent from
the sources. Per §4.1 of the spec, `decode` verifies signature and expiry and
returns the embedded claims on success, and fails (here: `none`) on any
malformed, expired or otherwise invalid token. -/
def decode_token : Token → Option Claims
  | .valid payload => some payload
  | .invalid _ => none

/-- Modelled from the spec: `src.core.security.get_jti_from_token` is absent
from the sources. It extracts the `jti` claim of a token that decodes, and
yields nothing for a token that does not. -/
def get_jti_from_token (t : Token) : Option String :=
  (decode_token t).bind (fun c => c.jti)

/-- Modelled from the spec: `src.core.security.get_password_hash` is absent
from the sources. The spec treats the hash as an opaque one-way digest of the
password produced by an external primitive; it is modelled as an injective
tagging of the plaintext. -/
def get_password_hash (password : String) : String :=
  String.append "bcrypt$" password

/-- Modelled from the spec: `src.core.security.verify_password` is absent
from the sources. Verification checks the stored digest against the digest of
the presented plaintext. -/
def verify_password (plain hashed : String) : Bool :=
  get_password_hash plain == hashed

/-- Access-token lifetime in seconds: ACCESS_TOKEN_EXPIRE_MINUTES = 30
(src/config.py line 34). -/
def accessTokenExpireSeconds : Nat := 30 * 60

/-- Refresh-token lifetime in seconds: REFRESH_TOKEN_EXPIRE_DAYS = 7
(src/config.py line 35). -/
def refreshTokenExpireSeconds : Nat := 7 * 24 * 60 * 60

/-- Modelled from the spec: `src.core.security.create_access_token` is absent
from the sources. Per §4.1, issuing embeds the given subject, the kind
`access`, a fresh unique jti (supplied by the caller of the model) and the
expiry instant `now + ttl`. -/
def create_access_token (sub : String) (freshJti : String) (now : Nat) : Token :=
  .valid ⟨some sub, some "access", some freshJti, some (now + accessTokenExpireSeconds)⟩

/-- Modelled from the spec: `src.core.security.create_refresh_token` is absent
from the sources. Same as access issuance with kind `refresh` and the longer
lifetime. -/
def create_refresh_token (sub : String) (freshJti : String) (now : Nat) : Token :=
  .valid ⟨some sub, some "refresh", some freshJti, some (now + refreshTokenExpireSeconds)⟩

/-- Error raised by an endpoint through HTTPException: status code and detail
string (src/core/exceptions.py and the endpoint modules). -/
structure HTTPError where
  status_code : Nat
  detail : String
deriving DecidableEq, Repr

/-- Failures an endpoint call can surface: a deliberate HTTPException, or an
integrity error raised by the store at commit time when a unique constraint
is violated. -/
inductive AppError where
  | http (e : HTTPError)
  | integrityError
deriving DecidableEq, Repr

/-- Credential row of the users table (src/database/models.py, class User),
restricted to the columns the auth endpoints read or write. -/
structure UserRec where
  id : String
  email : String
  username : String
  full_name : Option String
  hashed_password : String
  is_active : Bool
  is_verified : Bool
  last_login : Option Nat
  created_at : Option Nat
deriving DecidableEq, Repr

/-- Row of the token_blacklist table (src/database/models.py, class
TokenBlacklist). The jti column carries a unique constraint. -/
structure BlacklistEntry where
  jti : String
  user_id : String
  token_type : String
  expires_at : Nat
  reason : String
deriving DecidableEq, Repr

/-- Persistent store visible to the auth endpoints: users table and
token_blacklist table. -/
structure DB where
  users : List UserRec
  blacklist : List BlacklistEntry
deriving DecidableEq, Repr

/-- Query `db.query(User).filter(User.email == email).first()`. -/
def findByEmail (db : DB) (email : String) : Option UserRec :=
  db.users.find? (fun u => u.email == email)

/-- Query `db.query(User).filter(User.username == username).first()`. -/
def findByUsername (db : DB) (username : String) : Option UserRec :=
  db.users.find? (fun u => u.username == username)

/-- Request body of POST /login (src/schemas/auth.py, LoginRequest). -/
structure LoginRequest where
  email : String
  password : String
deriving DecidableEq, Repr

/-- Response body of the token-returning endpoints (src/schemas/auth.py,
TokenResponse). -/
structure TokenResponse where
  access_token : Token
  refresh_token : Token
  token_type : String
deriving DecidableEq, Repr

/-- Request body of POST /register (src/schemas/auth.py, RegisterRequest). -/
structure RegisterRequest where
  email : String
  username : String
  password : String
  full_name : Option String
deriving DecidableEq, Repr

/-- Response body of POST /register (src/schemas/auth.py, UserResponse). -/
structure UserResponse where
  id : String
  email : String
  username : String
  full_name : Option String
  is_active : Bool
  created_at : Option Nat
deriving DecidableEq, Repr

/-- Request body of POST /refresh (src/schemas/auth.py, RefreshTokenRequest). -/
structure RefreshTokenRequest where
  refresh_token : Token
deriving DecidableEq, Repr

/-- Request body of POST /logout (src/schemas/auth.py, LogoutRequest). -/
structure LogoutRequest where
  access_token : Token
  refresh_token : Token
deriving DecidableEq, Repr

/-- POST /login handler (src/api/v1/endpoints/auth/login.py, `login`).
The fresh jtis of the two issued tokens and the current instant are explicit
inputs of the model. On success the store is returned with the last_login of
the authenticated user updated. -/
def login (db : DB) (login_data : LoginRequest) (accessJti refreshJti : String)
    (now : Nat) : Except HTTPError (TokenResponse × DB) :=
  match findByEmail db login_data.email with
  | none => .error ⟨401, "Invalid email or password"⟩
  | some user =>
    if ¬ verify_password login_data.password user.hashed_password then
      .error ⟨401, "Invalid email or password"⟩
    else if ¬ user.is_active then
      .error ⟨403, "User account is disabled"⟩
    else
      let access := create_access_token user.id accessJti now
      let refresh := create_refresh_token user.id refreshJti now
      let updated := db.users.map
        (fun u => if u.id == user.id then { u with last_login := some now } else u)
      let db' : DB := { db with users := updated }
      .ok (⟨access, refresh, "bearer"⟩, db')

/-- POST /refresh handler (src/api/v1/endpoints/auth/refresh.py,
`refresh_token`). The fresh jti of the issued access token and the current
instant are explicit inputs of the model. The handler receives the database
session but the blacklist check is commented out in the source, so the store
is returned untouched. -/
def refresh_token (db : DB) (refresh_data : RefreshTokenRequest)
    (freshJti : String) (now : Nat) : Except HTTPError (TokenResponse × DB) :=
  match decode_token refresh_data.refresh_token with
  | none => .error ⟨401, "Invalid refresh token"⟩
  | some payload =>
    if payload.type ≠ some "refresh" then
      .error ⟨401, "Invalid token type"⟩
    else if ¬ pyTruthy payload.sub then
      .error ⟨401, "Invalid token payload"⟩
    else
      let user_id := payload.sub.getD ""
      let access := create_access_token user_id freshJti now
      .ok (⟨access, refresh_data.refresh_token, "bearer"⟩, db)

/-- Commit of a session holding `pending` new token_blacklist rows: the
insert fails with an integrity error when a pending jti already exists in the
table or two pending rows share a jti (jti is unique, src/database/models.py
line 467), and otherwise appends the rows. -/
def commitBlacklist (db : DB) (pending : List BlacklistEntry) : Except AppError DB :=
  if pending.any (fun e => db.blacklist.any (fun b => b.jti == e.jti)) ||
      ((pending.map (fun e => e.jti)).dedup.length ≠ (pending.map (fun e => e.jti)).length : Bool) then
    .error .integrityError
  else
    .ok { db with blacklist := db.blacklist ++ pending }

/-- POST /logout handler (src/api/v1/endpoints/auth/logout.py, `logout`).
Decodes both tokens, rejects with 400 unless both decode, derives the user id
from the access sub falling back to the refresh sub, stages one blacklist row
per token carrying a jti, and commits. -/
def logout (db : DB) (logout_data : LogoutRequest) : Except AppError (DB × String) :=
  match decode_token logout_data.access_token, decode_token logout_data.refresh_token with
  | none, _ => .error (.http ⟨400, "Invalid tokens"⟩)
  | some _, none => .error (.http ⟨400, "Invalid tokens"⟩)
  | some access_payload, some refresh_payload =>
    let user_id_opt := pyOr access_payload.sub refresh_payload.sub
    if ¬ pyTruthy user_id_opt then
      .error (.http ⟨400, "Invalid token payload"⟩)
    else
      let user_id := user_id_opt.getD ""
      let access_jti := pyOr (get_jti_from_token logout_data.access_token) access_payload.jti
      let accessRows : List BlacklistEntry :=
        if pyTruthy access_jti then
          [⟨access_jti.getD "", user_id, "access", access_payload.exp.getD 0, "logout"⟩]
        else []
      let refresh_jti := pyOr (get_jti_from_token logout_data.refresh_token) refresh_payload.jti
      let refreshRows : List BlacklistEntry :=
        if pyTruthy refresh_jti then
          [⟨refresh_jti.getD "", user_id, "refresh", refresh_payload.exp.getD 0, "logout"⟩]
        else []
      (commitBlacklist db (accessRows ++ refreshRows)).map
        (fun db' => (db', "Successfully logged out"))

/-- POST /register handler (src/api/v1/endpoints/auth/register.py,
`register`). The fresh row id and the creation instant assigned by the store
are explicit inputs of the model. -/
def register (db : DB) (register_data : RegisterRequest) (freshId : String)
    (now : Nat) : Except HTTPError (UserResponse × DB) :=
  match findByEmail db register_data.email with
  | some _ => .error ⟨400, "Email already registered"⟩
  | none =>
    match findByUsername db register_data.username with
    | some _ => .error ⟨400, "Username already taken"⟩
    | none =>
      let new_user : UserRec :=
        { id := freshId
          email := register_data.email
          username := register_data.username
          full_name := register_data.full_name
          hashed_password := get_password_hash register_data.password
          is_active := true
          is_verified := false
          last_login := none
          created_at := some now }
      let db' : DB := { db with users := db.users ++ [new_user] }
      .ok (⟨new_user.id, new_user.email, new_user.username, new_user.full_name,
            new_user.is_active, new_user.created_at⟩, db')

/-- Request authenticator (src/core/dependencies.py, `get_current_user_id`).
The UUID constructor of the Python standard library is an external primitive;
the model takes the parse function as a parameter, with identities drawn from
an arbitrary type. -/
def get_current_user_id {α : Type} (parseUUID : String → Option α)
    (token : Token) : Except HTTPError α :=
  match decode_token token with
  | none => .error ⟨401, "Invalid token"⟩
  | some payload =>
    if ¬ pyTruthy payload.sub then
      .error ⟨401, "Invalid token payload"⟩
    else
      match parseUUID (payload.sub.getD "") with
      | none => .error ⟨401, "Invalid user ID in token"⟩
      | some uid => .ok uid

/-! Concrete fixtures used by the closed evaluations below. -/

/-- Example access token: subject u1, kind access, jti jtiA, expiry 1000. -/
def exAccessTok : Token := .valid ⟨some "u1", some "access", some "jtiA", some 1000⟩

/-- Example refresh token: subject u1, kind refresh, jti jtiR, expiry 2000. -/
def exRefreshTok : Token := .valid ⟨some "u1", some "refresh", some "jtiR", some 2000⟩

/-- Empty store. -/
def exDB0 : DB := ⟨[], []⟩

/-- Store after logging out the example pair from the empty store: one
revocation row per token. -/
def exDB1 : DB :=
  ⟨[], [⟨"jtiA", "u1", "access", 1000, "logout"⟩, ⟨"jtiR", "u1", "refresh", 2000, "logout"⟩]⟩

/-- C1: the claim says a refresh request presenting a revoked refresh token
fails with InvalidToken 401. The code does not consult the revocation ledger
on the refresh path (the check is commented out in refresh.py): after a
successful logout whose ledger holds the refresh jti, the refresh request
still succeeds and mints a new access token. -/
theorem C1_refresh_accepts_revoked_token :
    logout exDB0 ⟨exAccessTok, exRefreshTok⟩ = .ok (exDB1, "Successfully logged out")
    ∧ exDB1.blacklist.any (fun b => b.jti == "jtiR") = true
    ∧ refresh_token exDB1 ⟨exRefreshTok⟩ "jtiB" 500 =
        .ok (⟨create_access_token "u1" "jtiB" 500, exRefreshTok, "bearer"⟩, exDB1) := by
  refine ⟨?_, ?_, ?_⟩ <;> rfl

/-- C2 counterexample: the claim says that when exactly one of the two tokens
decodes, logout still succeeds. Here the access token decodes and the refresh
token does not, yet logout fails with 400 Invalid tokens: the code rejects as
soon as either decode fails. -/
theorem C2_one_decodable_token_still_rejected :
    logout exDB0 ⟨exAccessTok, .invalid "garbage"⟩ = .error (.http ⟨400, "Invalid tokens"⟩) := by
  rfl

/-- Mapping over a successful-or-failed result keeps the error unchanged. -/
lemma exceptMap_error {ε α β : Type} (f : α → β) (x : Except ε α) (a : ε)
    (h : x.map f = .error a) : x = .error a := by
  cases x with
  | error e => simpa [Except.map] using h
  | ok v => simp [Except.map] at h

/-- Mapping over a result that ends up ok comes from an ok input. -/
lemma exceptMap_ok {ε α β : Type} (f : α → β) (x : Except ε α) (b : β)
    (h : x.map f = .ok b) : ∃ a, x = .ok a ∧ f a = b := by
  cases x with
  | error e => simp [Except.map] at h
  | ok v => exact ⟨v, rfl, by simpa [Except.map] using h⟩

/-- Commit of blacklist rows can only fail with the integrity error. -/
lemma commitBlacklist_error (db : DB) (pending : List BlacklistEntry) (e : AppError)
    (h : commitBlacklist db pending = .error e) : e = .integrityError := by
  unfold commitBlacklist at h
  split at h
  · simp only [Except.error.injEq] at h
    exact h.symm
  · simp at h

/-- Successful commit of blacklist rows appends exactly those rows. -/
lemma commitBlacklist_ok (db : DB) (pending : List BlacklistEntry) (db' : DB)
    (h : commitBlacklist db pending = .ok db') :
    db' = { db with blacklist := db.blacklist ++ pending } := by
  unfold commitBlacklist at h
  split at h
  · simp at h
  · simp only [Except.ok.injEq] at h
    exact h.symm

/-- C2 amended: logout fails with 400 Invalid tokens whenever at least one of
the two tokens fails to decode; when both decode it never returns that error,
with a truthy derived subject the only possible failure is the integrity
error of the commit, not an HTTP rejection, and every success appends to the
ledger exactly one revocation row per token carrying a truthy jti, with
reason logout and the token's own recorded expiry. -/
theorem C2_logout_requires_both_decodes (db : DB) (d : LogoutRequest) :
    ((decode_token d.access_token = none ∨ decode_token d.refresh_token = none) →
      logout db d = .error (.http ⟨400, "Invalid tokens"⟩))
    ∧ (∀ ap rp, decode_token d.access_token = some ap →
        decode_token d.refresh_token = some rp →
        pyTruthy (pyOr ap.sub rp.sub) = false →
        logout db d = .error (.http ⟨400, "Invalid token payload"⟩))
    ∧ (∀ ap rp, decode_token d.access_token = some ap →
        decode_token d.refresh_token = some rp →
        pyTruthy (pyOr ap.sub rp.sub) = true →
        ∀ e : HTTPError, logout db d ≠ .error (.http e))
    ∧ (∀ ap rp db' msg, decode_token d.access_token = some ap →
        decode_token d.refresh_token = some rp →
        logout db d = .ok (db', msg) →
        db'.blacklist = db.blacklist ++
          ((if pyTruthy (pyOr (get_jti_from_token d.access_token) ap.jti) = true then
              [⟨(pyOr (get_jti_from_token d.access_token) ap.jti).getD "",
                (pyOr ap.sub rp.sub).getD "", "access", ap.exp.getD 0, "logout"⟩]
            else []) ++
           (if pyTruthy (pyOr (get_jti_from_token d.refresh_token) rp.jti) = true then
              [⟨(pyOr (get_jti_from_token d.refresh_token) rp.jti).getD "",
                (pyOr ap.sub rp.sub).getD "", "refresh", rp.exp.getD 0, "logout"⟩]
            else []))) := by
  refine ⟨?_, ?_, ?_, ?_⟩
  · intro h
    cases hA : decode_token d.access_token with
    | none => simp [logout, hA]
    | some ap =>
      cases hR : decode_token d.refresh_token with
      | none => simp [logout, hA, hR]
      | some rp => simp [hA, hR] at h
  · intro ap rp hA hR hsub
    simp [logout, hA, hR, hsub]
  · intro ap rp hA hR hsub e hEq
    simp only [logout, hA, hR, hsub] at hEq
    have h2 := exceptMap_error _ _ _ hEq
    have h3 := commitBlacklist_error _ _ _ h2
    cases h3
  · intro ap rp db' msg hA hR hOk
    unfold logout at hOk
    rw [hA, hR] at hOk
    simp only [] at hOk
    by_cases hps : pyTruthy (pyOr ap.sub rp.sub) = true
    · rw [if_neg (not_not_intro hps)] at hOk
      obtain ⟨db2, hC, hf⟩ := exceptMap_ok _ _ _ hOk
      have hdb2 := commitBlacklist_ok _ _ _ hC
      have hdb' : db' = db2 := (congrArg Prod.fst hf).symm
      rw [hdb', hdb2]
    · rw [if_pos hps] at hOk
      exact absurd hOk (by simp)

/-- C3: the claim (and the spec) require logout to be idempotent. The jti
column of token_blacklist is unique, and logout inserts blindly, so a second
logout with the same pair raises an integrity error at commit instead of
succeeding. -/
theorem C3_second_logout_fails :
    logout exDB0 ⟨exAccessTok, exRefreshTok⟩ = .ok (exDB1, "Successfully logged out")
    ∧ logout exDB1 ⟨exAccessTok, exRefreshTok⟩ = .error .integrityError := by
  exact ⟨rfl, rfl⟩

/-- Example active user with a known password digest. -/
def exUser : UserRec :=
  ⟨"uid1", "a@x.com", "alice", none, get_password_hash "password123", true, false, none, none⟩

/-- Store holding only the example active user. -/
def exDB2 : DB := ⟨[exUser], []⟩

/-- Example disabled user with a known password digest. -/
def exUserDisabled : UserRec :=
  ⟨"uid2", "c@x.com", "carol", none, get_password_hash "password123", false, false, none, none⟩

/-- Store holding only the example disabled user. -/
def exDB3 : DB := ⟨[exUserDisabled], []⟩

/-- C4: a login with a wrong password for an existing account and a login
with a non-existent email fail with one and the same error value: status 401
and detail Invalid email or password, so the two causes are indistinguishable
to the caller. -/
theorem C4_login_non_enumeration (db : DB) (d1 d2 : LoginRequest)
    (j1 j2 j3 j4 : String) (n1 n2 : Nat) (u : UserRec)
    (h1 : findByEmail db d1.email = some u)
    (h2 : verify_password d1.password u.hashed_password = false)
    (h3 : findByEmail db d2.email = none) :
    login db d1 j1 j2 n1 = .error ⟨401, "Invalid email or password"⟩
    ∧ login db d2 j3 j4 n2 = .error ⟨401, "Invalid email or password"⟩ := by
  constructor
  · simp [login, h1, h2]
  · simp [login, h3]

/-- C4 witness: wrong password for the registered account and a login for an
unknown email both yield the same 401 error. -/
theorem C4_login_non_enumeration_witness :
    login exDB2 ⟨"a@x.com", "wrongpass"⟩ "j1" "j2" 0 =
      .error ⟨401, "Invalid email or password"⟩
    ∧ login exDB2 ⟨"b@x.com", "password123"⟩ "j3" "j4" 0 =
      .error ⟨401, "Invalid email or password"⟩ :=
  C4_login_non_enumeration exDB2 ⟨"a@x.com", "wrongpass"⟩ ⟨"b@x.com", "password123"⟩
    "j1" "j2" "j3" "j4" 0 0 exUser (by rfl) (by rfl) (by rfl)

/-- C5: the refresh handler rejects a decodable token whose type claim is not
refresh with 401; on a decodable token of type refresh carrying a nonempty
sub it returns a fresh access token for that same sub and echoes the
presented refresh token unchanged. -/
theorem C5_refresh_type_check_and_echo (db : DB) (d : RefreshTokenRequest)
    (j : String) (now : Nat) (p : Claims)
    (hdec : decode_token d.refresh_token = some p) :
    (p.type ≠ some "refresh" →
      refresh_token db d j now = .error ⟨401, "Invalid token type"⟩)
    ∧ (∀ s, p.type = some "refresh" → p.sub = some s → s ≠ "" →
        refresh_token db d j now =
          .ok (⟨create_access_token s j now, d.refresh_token, "bearer"⟩, db)
        ∧ decode_token (create_access_token s j now) =
            some ⟨some s, some "access", some j, some (now + accessTokenExpireSeconds)⟩) := by
  constructor
  · intro ht
    simp [refresh_token, hdec, ht]
  · intro s ht hs hne
    refine ⟨?_, rfl⟩
    simp [refresh_token, hdec, ht, hs, pyTruthy, hne]

/-- C5 witness: the example refresh token is exchanged for a fresh access
token with the same subject, the input token coming back unchanged. -/
theorem C5_refresh_type_check_and_echo_witness :
    refresh_token exDB0 ⟨exRefreshTok⟩ "jtiC" 100 =
      .ok (⟨create_access_token "u1" "jtiC" 100, exRefreshTok, "bearer"⟩, exDB0) :=
  ((C5_refresh_type_check_and_echo exDB0 ⟨exRefreshTok⟩ "jtiC" 100
      ⟨some "u1", some "refresh", some "jtiR", some 2000⟩ rfl).2
    "u1" rfl rfl (by decide)).1

/-- C7: when the email is found, a matching password on a disabled account
yields 403 User account is disabled, while a mismatching password yields 401
regardless of the active flag: the active check runs only after lookup and
verification succeed. -/
theorem C7_disabled_checked_after_password (db : DB) (d : LoginRequest)
    (j1 j2 : String) (now : Nat) (u : UserRec)
    (h1 : findByEmail db d.email = some u) :
    (verify_password d.password u.hashed_password = true → u.is_active = false →
      login db d j1 j2 now = .error ⟨403, "User account is disabled"⟩)
    ∧ (verify_password d.password u.hashed_password = false →
      login db d j1 j2 now = .error ⟨401, "Invalid email or password"⟩) := by
  constructor
  · intro hv ha
    simp [login, h1, hv, ha]
  · intro hv
    simp [login, h1, hv]

/-- C7 witness: the disabled example account with the correct password is
rejected with 403. -/
theorem C7_disabled_checked_after_password_witness :
    login exDB3 ⟨"c@x.com", "password123"⟩ "j1" "j2" 0 =
      .error ⟨403, "User account is disabled"⟩ :=
  (C7_disabled_checked_after_password exDB3 ⟨"c@x.com", "password123"⟩ "j1" "j2" 0
    exUserDisabled (by rfl)).1 (by rfl) (by rfl)

/-- Characterization of truthiness: an optional string is truthy exactly when
it holds a nonempty string. -/
lemma pyTruthy_iff (o : Option String) : pyTruthy o = true ↔ ∃ s, o = some s ∧ s ≠ "" := by
  cases o with
  | none => simp [pyTruthy]
  | some s => simp [pyTruthy]

/-- C6: the request authenticator returns a parsed identity exactly when the
token decodes, carries a nonempty sub, and the sub parses; every rejection it
produces carries status 401. The UUID parser is any external parse function
that rejects the empty string, as the standard library constructor does. -/
theorem C6_authenticate_exact_reject_reasons {α : Type} (parse : String → Option α)
    (t : Token) (hempty : parse "" = none) :
    (∀ uid, get_current_user_id parse t = .ok uid ↔
        ∃ c s, decode_token t = some c ∧ c.sub = some s ∧ parse s = some uid)
    ∧ (∀ e, get_current_user_id parse t = .error e → e.status_code = 401) := by
  constructor
  · intro uid
    constructor
    · intro h
      unfold get_current_user_id at h
      split at h
      · exact absurd h (by simp)
      · rename_i payload hd
        split at h
        · exact absurd h (by simp)
        · rename_i hps
          split at h
          · exact absurd h (by simp)
          · rename_i v hp
            injection h with hv
            have hps' : pyTruthy payload.sub = true := by
              by_contra hc
              exact hps (fun hx => hc hx)
            obtain ⟨s, hs, hne⟩ := (pyTruthy_iff _).mp hps'
            refine ⟨payload, s, hd, hs, ?_⟩
            rw [hs] at hp
            simpa [hv] using hp
    · rintro ⟨c, s, hd, hs, hp⟩
      have hne : s ≠ "" := by
        intro h0
        rw [h0, hempty] at hp
        cases hp
      unfold get_current_user_id
      rw [hd]
      simp [hs, pyTruthy, hne, hp]
  · intro e h
    unfold get_current_user_id at h
    split at h
    · injection h with h2
      subst h2
      rfl
    · split at h
      · injection h with h2
        subst h2
        rfl
      · split at h
        · injection h with h2
          subst h2
          rfl
        · exact absurd h (by simp)

/-- Example identity parser: accepts only the subject u1, as identity 7. -/
def exParse : String → Option Nat := fun s => if s = "u1" then some 7 else none

/-- C6 witness: the example access token authenticates to identity 7 under
the example parser, which rejects the empty string. -/
theorem C6_authenticate_exact_reject_reasons_witness :
    get_current_user_id exParse exAccessTok = .ok 7 :=
  ((C6_authenticate_exact_reject_reasons exParse exAccessTok (by rfl)).1 7).mpr
    ⟨⟨some "u1", some "access", some "jtiA", some 1000⟩, "u1", rfl, rfl, by rfl⟩

/-- C8: registration with an already-registered email fails 400 without
touching the store; with a fresh email but taken username it fails 400
likewise; with both fresh it appends exactly one user row (active, not
verified) and returns its summary, leaving the blacklist untouched. -/
theorem C8_register_duplicates_and_fresh (db : DB) (d : RegisterRequest)
    (fid : String) (now : Nat) :
    (∀ u, findByEmail db d.email = some u →
      register db d fid now = .error ⟨400, "Email already registered"⟩)
    ∧ (∀ u, findByEmail db d.email = none → findByUsername db d.username = some u →
      register db d fid now = .error ⟨400, "Username already taken"⟩)
    ∧ (findByEmail db d.email = none → findByUsername db d.username = none →
      register db d fid now =
        .ok (⟨fid, d.email, d.username, d.full_name, true, some now⟩,
          { db with users := db.users ++
              [⟨fid, d.email, d.username, d.full_name, get_password_hash d.password,
                true, false, none, some now⟩] })) := by
  refine ⟨?_, ?_, ?_⟩
  · intro u h
    simp [register, h]
  · intro u h1 h2
    simp [register, h1, h2]
  · intro h1 h2
    simp [register, h1, h2]

/-- C8 witness: registering a fresh email and username next to the example
user appends exactly that one row and returns its summary. -/
theorem C8_register_duplicates_and_fresh_witness :
    register exDB2 ⟨"new@x.com", "newbie", "password123", none⟩ "uid9" 5 =
      .ok (⟨"uid9", "new@x.com", "newbie", none, true, some 5⟩,
        { exDB2 with users := exDB2.users ++
            [⟨"uid9", "new@x.com", "newbie", none, get_password_hash "password123",
              true, false, none, some 5⟩] }) :=
  (C8_register_duplicates_and_fresh exDB2 ⟨"new@x.com", "newbie", "password123", none⟩
    "uid9" 5).2.2 (by rfl) (by rfl)

/-- C9: the refresh handler performs no writes: whenever it succeeds, the
store it returns is exactly the store it was given (and error outcomes carry
no store at all, the handler never staging an insert or commit). -/
theorem C9_refresh_no_writes (db : DB) (d : RefreshTokenRequest) (j : String)
    (now : Nat) (resp : TokenResponse) (db' : DB)
    (h : refresh_token db d j now = .ok (resp, db')) : db' = db := by
  unfold refresh_token at h
  split at h
  · exact absurd h (by simp)
  · split at h
    · exact absurd h (by simp)
    · split at h
      · exact absurd h (by simp)
      · injection h with h2
        exact (congrArg Prod.snd h2).symm

/-- C9 witness: refreshing against the post-logout store succeeds and
returns that store unchanged. -/
theorem C9_refresh_no_writes_witness :
    refresh_token exDB1 ⟨exRefreshTok⟩ "jtiB" 500 =
      .ok (⟨create_access_token "u1" "jtiB" 500, exRefreshTok, "bearer"⟩, exDB1)
    ∧ exDB1 = exDB1 :=
  ⟨rfl, C9_refresh_no_writes exDB1 ⟨exRefreshTok⟩ "jtiB" 500
    ⟨create_access_token "u1" "jtiB" 500, exRefreshTok, "bearer"⟩ exDB1 rfl⟩

/-- C10: a successful logout derives a single user id, preferring the access
token sub when truthy and falling back to the refresh token sub, and every
revocation row it appends carries exactly that user id, for the access row
and the refresh row alike. -/
theorem C10_logout_rows_single_user (db : DB) (d : LogoutRequest) (db' : DB)
    (msg : String) (h : logout db d = .ok (db', msg)) :
    ∃ ap rp uid rows,
      decode_token d.access_token = some ap ∧
      decode_token d.refresh_token = some rp ∧
      (pyTruthy ap.sub = true → ap.sub = some uid) ∧
      (pyTruthy ap.sub = false → rp.sub = some uid) ∧
      db'.blacklist = db.blacklist ++ rows ∧
      (∀ e ∈ rows, e.user_id = uid) := by
  cases htA : decode_token d.access_token with
  | none =>
    unfold logout at h
    rw [htA] at h
    exact absurd h (by simp)
  | some ap =>
    cases htR : decode_token d.refresh_token with
    | none =>
      unfold logout at h
      rw [htA, htR] at h
      exact absurd h (by simp)
    | some rp =>
      unfold logout at h
      rw [htA, htR] at h
      simp only [] at h
      by_cases hps : pyTruthy (pyOr ap.sub rp.sub) = true
      · rw [if_neg (not_not_intro hps)] at h
        obtain ⟨db2, hC, hf⟩ := exceptMap_ok _ _ _ h
        have hdb2 := commitBlacklist_ok _ _ _ hC
        have hdb' : db' = db2 := (congrArg Prod.fst hf).symm
        refine ⟨ap, rp, (pyOr ap.sub rp.sub).getD "",
          (if pyTruthy (pyOr (get_jti_from_token d.access_token) ap.jti) = true then
            [⟨(pyOr (get_jti_from_token d.access_token) ap.jti).getD "",
              (pyOr ap.sub rp.sub).getD "", "access", ap.exp.getD 0, "logout"⟩]
          else []) ++
          (if pyTruthy (pyOr (get_jti_from_token d.refresh_token) rp.jti) = true then
            [⟨(pyOr (get_jti_from_token d.refresh_token) rp.jti).getD "",
              (pyOr ap.sub rp.sub).getD "", "refresh", rp.exp.getD 0, "logout"⟩]
          else []),
          rfl, rfl, ?_, ?_, ?_, ?_⟩
        · intro hat
          obtain ⟨s, hs, hne⟩ := (pyTruthy_iff _).mp hat
          have hpo : pyOr ap.sub rp.sub = ap.sub := by simp [pyOr, hat]
          rw [hpo, hs]
          rfl
        · intro haf
          have hpo : pyOr ap.sub rp.sub = rp.sub := by simp [pyOr, haf]
          have hrt : pyTruthy rp.sub = true := by
            rw [← hpo]
            exact hps
          obtain ⟨s, hs, hne⟩ := (pyTruthy_iff _).mp hrt
          rw [hpo, hs]
          rfl
        · rw [hdb', hdb2]
        · intro e he
          rcases List.mem_append.mp he with h1 | h1
          · split at h1
            · simp only [List.mem_singleton] at h1
              subst h1
              rfl
            · simp at h1
          · split at h1
            · simp only [List.mem_singleton] at h1
              subst h1
              rfl
            · simp at h1
      · rw [if_pos hps] at h
        exact absurd h (by simp)

/-- C10 witness: logging out the example pair writes two rows, both carrying
the subject u1 taken from the access token. -/
theorem C10_logout_rows_single_user_witness :
    logout exDB0 ⟨exAccessTok, exRefreshTok⟩ = .ok (exDB1, "Successfully logged out")
    ∧ ∃ ap rp uid rows,
        decode_token exAccessTok = some ap ∧
        decode_token exRefreshTok = some rp ∧
        (pyTruthy ap.sub = true → ap.sub = some uid) ∧
        (pyTruthy ap.sub = false → rp.sub = some uid) ∧
        exDB1.blacklist = exDB0.blacklist ++ rows ∧
        (∀ e ∈ rows, e.user_id = uid) :=
  ⟨rfl, C10_logout_rows_single_user exDB0 ⟨exAccessTok, exRefreshTok⟩ exDB1
    "Successfully logged out" rfl⟩

/-- C2 amended witness: with two undecodable tokens, logout fails with the
400 Invalid tokens error, and the successful logout of the example pair
appends exactly one revocation row per token. -/
theorem C2_logout_requires_both_decodes_witness :
    logout exDB0 ⟨.invalid "x", .invalid "y"⟩ = .error (.http ⟨400, "Invalid tokens"⟩)
    ∧ exDB1.blacklist = exDB0.blacklist ++
        [⟨"jtiA", "u1", "access", 1000, "logout"⟩,
         ⟨"jtiR", "u1", "refresh", 2000, "logout"⟩] :=
  ⟨(C2_logout_requires_both_decodes exDB0 ⟨.invalid "x", .invalid "y"⟩).1 (Or.inl rfl),
   (C2_logout_requires_both_decodes exDB0 ⟨exAccessTok, exRefreshTok⟩).2.2.2
     ⟨some "u1", some "access", some "jtiA", some 1000⟩
     ⟨some "u1", some "refresh", some "jtiR", some 2000⟩
     exDB1 "Successfully logged out" rfl rfl rfl⟩
